import Mathlib

/-!
# Verification of `speech_to_text.py` (Google-Meet-Bot)

A shallow embedding of the `SpeechToText` class. External effects are modelled
explicitly:

* the process environment is a function `String → Option String`;
* the filesystem is a function `String → Option Int` giving the byte size of
  each existing, readable file (`none` means the path does not name one);
* the outcome of the single `requests.post` call is an oracle value
  (`PostOutcome`): either a raised `requests.exceptions.RequestException`, or a
  final HTTP response with a status code and a body, the body being given as its
  JSON parse result (`none` when `response.json()` raises `JSONDecodeError`);
* the Gemini client is an oracle `String → Except String String` from the full
  prompt text to either generated text or the message of a raised exception;
* Python exceptions escaping a function are `Except.error` values of `PyError`.

Python values that can flow out of `response.json()` (and hence into the
rest of the pipeline as the "transcription") are modelled by `Jval`.
-/

/-- A Python exception escaping a modelled function, with its message. -/
inductive PyError where
  | valueError (msg : String)
  | osError (msg : String)
  | attributeError (msg : String)
deriving DecidableEq

/-- Python truthiness test `not x` for `x : Optional[str]`:
`None` and the empty string are falsy. -/
def pyFalsy : Option String → Bool
  | none => true
  | some s => s = ""

/-- Digit run of a Python integer literal: digits with single underscores
allowed strictly between digits (`int("1_0") == 10`). Returns the value. -/
def pyIntDigits : Nat → List Char → Option Nat
  | acc, [] => some acc
  | acc, c :: rest =>
    if c.isDigit then pyIntDigits (10 * acc + (c.toNat - 48)) rest
    else if c.toNat = 95 then
      match rest with
      | d :: rest2 => if d.isDigit then pyIntDigits (10 * acc + (d.toNat - 48)) rest2 else none
      | [] => none
    else none

/-- Start of the digit run: must begin with a digit. -/
def pyIntCore : List Char → Option Nat
  | [] => none
  | c :: rest => if c.isDigit then pyIntDigits (c.toNat - 48) rest else none

/-- Strip leading and trailing whitespace from a character list. -/
def trimChars (cs : List Char) : List Char :=
  ((cs.dropWhile Char.isWhitespace).reverse.dropWhile Char.isWhitespace).reverse

/-- Python `int(s)` on a decimal string: optional surrounding whitespace,
optional sign, then a digit run. `none` models the raised `ValueError`.
(Non-ASCII digits, accepted by CPython, are not modelled.) -/
def int_of_string (s : String) : Option Int :=
  match trimChars s.data with
  | '+' :: rest => (pyIntCore rest).map Int.ofNat
  | '-' :: rest => (pyIntCore rest).map (fun n => -(n : Int))
  | cs => (pyIntCore cs).map Int.ofNat

/-- The configuration state built by `SpeechToText.__init__`. -/
structure SpeechToText where
  elevenlabs_api_key : String
  gemini_api_key : String
  gemini_model_name : String
  elevenlabs_scribe_model_id : String
  MAX_AUDIO_SIZE_BYTES : Int
deriving DecidableEq

/-- `SpeechToText.__init__`: reads the two mandatory keys (raising `ValueError`
when either is missing or empty), then the optional model names, then converts
`MAX_AUDIO_SIZE_BYTES` with `int()` (default `20 * 1024 * 1024`).
`genai.configure` and the `GenerativeModel` construction perform no modelled
effect (they build local client objects; no network traffic). -/
def SpeechToText.init (env : String → Option String) : Except PyError SpeechToText :=
  let elevenlabs_api_key := env "ELEVENLABS_API_KEY"
  let gemini_api_key := env "GEMINI_API_KEY"
  if pyFalsy elevenlabs_api_key then
    .error (.valueError "ELEVENLABS_API_KEY não configurada nas variáveis de ambiente.")
  else if pyFalsy gemini_api_key then
    .error (.valueError "GEMINI_API_KEY não configurada nas variáveis de ambiente.")
  else
    let gemini_model_name := (env "GEMINI_MODEL").getD "gemini-1.5-flash"
    let elevenlabs_scribe_model_id := (env "ELEVENLABS_SCRIBE_MODEL_ID").getD "scribe_v1"
    match env "MAX_AUDIO_SIZE_BYTES" with
    | none =>
      .ok { elevenlabs_api_key := elevenlabs_api_key.getD ""
            gemini_api_key := gemini_api_key.getD ""
            gemini_model_name := gemini_model_name
            elevenlabs_scribe_model_id := elevenlabs_scribe_model_id
            MAX_AUDIO_SIZE_BYTES := 20 * 1024 * 1024 }
    | some v =>
      match int_of_string v with
      | none => .error (.valueError ("invalid literal for int() with base 10: " ++ v))
      | some n =>
        .ok { elevenlabs_api_key := elevenlabs_api_key.getD ""
              gemini_api_key := gemini_api_key.getD ""
              gemini_model_name := gemini_model_name
              elevenlabs_scribe_model_id := elevenlabs_scribe_model_id
              MAX_AUDIO_SIZE_BYTES := n }

mutual
/-- A Python value as produced by `response.json()`: JSON strings, integers,
booleans, `None`, lists and dicts. (JSON floats are not modelled; no claim
touches them.) -/
inductive Jval where
  | str (s : String)
  | num (n : Int)
  | bool (b : Bool)
  | null
  | arr (xs : JArr)
  | obj (fields : JObj)

/-- A Python list of `Jval`s. -/
inductive JArr where
  | nil
  | cons (head : Jval) (tail : JArr)

/-- A Python dict with string keys (keys are unique, as `json.loads` yields). -/
inductive JObj where
  | nil
  | cons (key : String) (val : Jval) (tail : JObj)
end

/-- `d.get(key, default)` on a Python dict. -/
def dictGet : JObj → String → Jval → Jval
  | .nil, _, dflt => dflt
  | .cons k v rest, key, dflt => if k = key then v else dictGet rest key dflt

/-- Key lookup on a Python dict, `none` when the key is absent. -/
def jobjLookup : JObj → String → Option Jval
  | .nil, _ => none
  | .cons k v rest, key => if k = key then some v else jobjLookup rest key

/-- Lowercase hexadecimal digit for `n < 16`. -/
def hexDigitChar (n : Nat) : Char :=
  if n < 10 then Char.ofNat (48 + n) else Char.ofNat (87 + n)

/-- The single-quote character (spelled via its code point). -/
def squote : Char := Char.ofNat 39

/-- One character of a Python string repr under quote character `q`. -/
def pyReprStrChar (q : Char) (c : Char) : List Char :=
  if c = '\\' then ['\\', '\\']
  else if c = q then ['\\', q]
  else if c = '\n' then ['\\', 'n']
  else if c = '\r' then ['\\', 'r']
  else if c = '\t' then ['\\', 't']
  else if c.toNat < 0x20 ∨ c.toNat = 0x7f then
    ['\\', 'x', hexDigitChar (c.toNat / 16), hexDigitChar (c.toNat % 16)]
  else [c]

/-- Python `repr` of a string: single-quoted, double-quoted only when the
string holds a single quote but no double quote. (Non-printable non-ASCII
escaping is not modelled; no claim touches it.) -/
def pyReprStr (s : String) : String :=
  let q := if s.contains squote ∧ ¬ s.contains '"' then '"' else squote
  String.mk (q :: s.data.flatMap (pyReprStrChar q) ++ [q])

mutual
/-- Python `repr` of a `Jval`. -/
def pyRepr : Jval → String
  | .str s => pyReprStr s
  | .num n => toString n
  | .bool b => if b then "True" else "False"
  | .null => "None"
  | .arr xs => "[" ++ pyReprArr xs ++ "]"
  | .obj fs => "\x7b" ++ pyReprObj fs ++ "\x7d"

/-- Comma-separated reprs of list elements. -/
def pyReprArr : JArr → String
  | .nil => ""
  | .cons x .nil => pyRepr x
  | .cons x rest => pyRepr x ++ ", " ++ pyReprArr rest

/-- Comma-separated reprs of dict entries. -/
def pyReprObj : JObj → String
  | .nil => ""
  | .cons k v .nil => pyReprStr k ++ ": " ++ pyRepr v
  | .cons k v rest => pyReprStr k ++ ": " ++ pyRepr v ++ ", " ++ pyReprObj rest
end

/-- Python `str()` of a `Jval`, as an f-string renders it: strings verbatim,
`None` as `"None"`, other values by `repr`. -/
def pyStr : Jval → String
  | .str s => s
  | v => pyRepr v

/-- The Gemini client as an oracle: maps the full prompt text to the generated
text (`.ok`) or to the message of a raised exception (`.error`). -/
def Gemini : Type := String → Except String String

/-- The outcome of the `requests.post` upload to the ElevenLabs endpoint. -/
inductive PostOutcome where
  | requestException (msg : String)
  | response (status : Nat) (body : Option Jval)

/-- Everything external that one run of the pipeline observes. -/
structure World where
  fs : String → Option Int
  post : PostOutcome
  gemini : Gemini
  temp_dir : String
  timestamp : String

/-- `os.path.getsize`: raises `OSError` when the path names no file. -/
def get_file_size (w : World) (file_path : String) : Except PyError Int :=
  match w.fs file_path with
  | none => .error (.osError ("No such file or directory: " ++ file_path))
  | some n => .ok n

/-- `resize_audio_if_needed`: compares the file size against
`MAX_AUDIO_SIZE_BYTES`; over the limit it only prints a warning (the returned
`Bool`); the resize branch is commented out in the source. The path is
returned unchanged in both branches. -/
def resize_audio_if_needed (st : SpeechToText) (w : World) (audio_file_path : String) :
    Except PyError (String × Bool) :=
  match get_file_size w audio_file_path with
  | .error e => .error e
  | .ok audio_size =>
    if audio_size > st.MAX_AUDIO_SIZE_BYTES then .ok (audio_file_path, true)
    else .ok (audio_file_path, false)

/-- `transcribe_audio`: opens the file (outside the `try`, so a missing file
raises), posts it, calls `raise_for_status` (which raises `HTTPError`, a
`RequestException`, exactly for statuses 400–599), decodes the body as JSON and
returns `transcript_data.get("text", "")`. `RequestException` and
`JSONDecodeError` are caught and yield `None`; `.get` on a non-dict body raises
an uncaught `AttributeError`. -/
def transcribe_audio (st : SpeechToText) (w : World) (audio_file_path : String) :
    Except PyError Jval :=
  match w.fs audio_file_path with
  | none => .error (.osError ("No such file or directory: " ++ audio_file_path))
  | some _ =>
    match w.post with
    | .requestException _ => .ok Jval.null
    | .response status body =>
      if 400 ≤ status ∧ status < 600 then .ok Jval.null
      else
        match body with
        | none => .ok Jval.null
        | some j =>
          match j with
          | .obj fields => .ok (dictGet fields "text" (Jval.str ""))
          | _ => .error (.attributeError "object has no attribute get")

/-- The system prompt of `abstract_summary_extraction`. -/
def ABSTRACT_SUMMARY_PROMPT : String :=
  "Você é uma IA altamente qualificada, treinada em compreensão de linguagem e sumarização. Gostaria que você lesse o texto a seguir e o resumisse em um parágrafo abstrato conciso. Procure reter os pontos mais importantes, fornecendo um resumo coerente e legível que possa ajudar uma pessoa a entender os pontos principais da discussão sem precisar ler o texto inteiro. Evite detalhes desnecessários ou pontos tangenciais."

/-- The system prompt of `key_points_extraction`. -/
def KEY_POINTS_PROMPT : String :=
  "Você é uma IA proficiente com especialidade em destilar informações em pontos-chave. Com base no texto a seguir, identifique e liste os principais pontos que foram discutidos ou levantados. Devem ser as ideias, descobertas ou tópicos mais importantes que são cruciais para a essência da discussão. Seu objetivo é fornecer uma lista que alguém possa ler para entender rapidamente sobre o que foi falado."

/-- The system prompt of `action_item_extraction`. -/
def ACTION_ITEM_PROMPT : String :=
  "Você é um especialista em IA em analisar conversas e extrair itens de ação. Revise o texto e identifique quaisquer tarefas, atribuições ou ações que foram acordadas ou mencionadas como necessitando ser feitas. Podem ser tarefas atribuídas a indivíduos específicos ou ações gerais que o grupo decidiu tomar. Liste esses itens de ação de forma clara e concisa."

/-- The system prompt of `sentiment_analysis`. -/
def SENTIMENT_PROMPT : String :=
  "Como uma IA com experiência em análise de linguagem e emoção, sua tarefa é analisar o sentimento do texto a seguir. Considere o tom geral da discussão, a emoção transmitida pela linguagem utilizada e o contexto em que palavras e frases são usadas. Indique se o sentimento é geralmente positivo, negativo ou neutro e forneça breves explicações para sua análise, quando possível."

/-- The single prompt string `f"{system_prompt}\n\nTexto para analisar:\n{user_transcription}"`
sent to Gemini (the f-string renders the transcription with `str()`). -/
def mkPrompt (system_prompt : String) (user_transcription : Jval) : String :=
  system_prompt ++ "\n\nTexto para analisar:\n" ++ pyStr user_transcription

/-- `_generate_gemini_content`: one `generate_content` call; any raised
exception is caught and converted to the text
`"Erro ao gerar conteúdo: " ++ message`. Returns the produced text together
with the prompt that was sent (the call trace of this sub-operation). -/
def _generate_gemini_content (g : Gemini) (system_prompt : String) (user_transcription : Jval) :
    String × String :=
  let prompt := mkPrompt system_prompt user_transcription
  (match g prompt with
   | .ok text => text
   | .error e => "Erro ao gerar conteúdo: " ++ e,
   prompt)

/-- `abstract_summary_extraction`. -/
def abstract_summary_extraction (g : Gemini) (transcription : Jval) : String × String :=
  _generate_gemini_content g ABSTRACT_SUMMARY_PROMPT transcription

/-- `key_points_extraction`. -/
def key_points_extraction (g : Gemini) (transcription : Jval) : String × String :=
  _generate_gemini_content g KEY_POINTS_PROMPT transcription

/-- `action_item_extraction`. -/
def action_item_extraction (g : Gemini) (transcription : Jval) : String × String :=
  _generate_gemini_content g ACTION_ITEM_PROMPT transcription

/-- `sentiment_analysis`. -/
def sentiment_analysis (g : Gemini) (transcription : Jval) : String × String :=
  _generate_gemini_content g SENTIMENT_PROMPT transcription

/-- The dict returned by `meeting_minutes`: exactly these four keys, each
bound to a string. -/
structure MeetingSummary where
  abstract_summary : String
  key_points : String
  action_items : String
  sentiment : String
deriving DecidableEq

/-- `meeting_minutes`: the four generation sub-operations in source order.
Returns the summary record and the list of prompts sent to Gemini (its
call trace, in order). -/
def meeting_minutes (g : Gemini) (transcription : Jval) : MeetingSummary × List String :=
  let a := abstract_summary_extraction g transcription
  let k := key_points_extraction g transcription
  let i := action_item_extraction g transcription
  let s := sentiment_analysis g transcription
  (⟨a.1, k.1, i.1, s.1⟩, [a.2, k.2, i.2, s.2])

/-- One character of `json.dumps` string escaping (defaults: `ensure_ascii`).
`"` and `\` get two-character escapes, the five short control escapes apply,
every other character outside `0x20`–`0x7e` becomes `\uXXXX` (a surrogate pair
beyond `0xFFFF`), and the printable ASCII rest is kept verbatim. -/
def jsonEscapeChar (c : Char) : List Char :=
  if c = '"' then ['\\', '"']
  else if c = '\\' then ['\\', '\\']
  else if c = '\n' then ['\\', 'n']
  else if c = '\r' then ['\\', 'r']
  else if c = '\t' then ['\\', 't']
  else if c.toNat = 8 then ['\\', 'b']
  else if c.toNat = 12 then ['\\', 'f']
  else if 0x20 ≤ c.toNat ∧ c.toNat ≤ 0x7e then [c]
  else if c.toNat ≤ 0xffff then
    '\\' :: 'u' :: [hexDigitChar (c.toNat / 4096 % 16), hexDigitChar (c.toNat / 256 % 16),
      hexDigitChar (c.toNat / 16 % 16), hexDigitChar (c.toNat % 16)]
  else
    let v := c.toNat - 0x10000
    let hi := 0xd800 + v / 1024
    let lo := 0xdc00 + v % 1024
    ('\\' :: 'u' :: [hexDigitChar (hi / 4096 % 16), hexDigitChar (hi / 256 % 16),
      hexDigitChar (hi / 16 % 16), hexDigitChar (hi % 16)]) ++
    ('\\' :: 'u' :: [hexDigitChar (lo / 4096 % 16), hexDigitChar (lo / 256 % 16),
      hexDigitChar (lo / 16 % 16), hexDigitChar (lo % 16)])

/-- `json.dumps` of one string, quotes included. -/
def jsonEncodeString (s : String) : String :=
  String.mk ('"' :: s.data.flatMap jsonEscapeChar ++ ['"'])

/-- The exact text `json.dump` writes for the summary dict: insertion order of
the keys, default separators `", "` and `": "`. -/
def store_json_content (data : MeetingSummary) : String :=
  "\x7b" ++ jsonEncodeString "abstract_summary" ++ ": " ++ jsonEncodeString data.abstract_summary
  ++ ", " ++ jsonEncodeString "key_points" ++ ": " ++ jsonEncodeString data.key_points
  ++ ", " ++ jsonEncodeString "action_items" ++ ": " ++ jsonEncodeString data.action_items
  ++ ", " ++ jsonEncodeString "sentiment" ++ ": " ++ jsonEncodeString data.sentiment
  ++ "\x7d"

/-- The one file a `store_in_json_file` call creates. -/
structure StoredFile where
  path : String
  content : String
deriving DecidableEq

/-- `store_in_json_file`: a fresh temp directory (`tempfile.mkdtemp`, supplied
by the world), a timestamped name inside it, and the JSON dump as content. -/
def store_in_json_file (data : MeetingSummary) (temp_dir : String) (timestamp : String) :
    StoredFile :=
  { path := temp_dir ++ "/meeting_data_" ++ timestamp ++ ".json"
    content := store_json_content data }

/-- What one completed run of the orchestrator produced. -/
structure RunResult where
  transcription : Jval
  summary : MeetingSummary
  artifact : StoredFile

/-- The orchestrator `transcribe`: size check, transcription, summarization of
whatever the transcription step returned (there is no branch on its value),
persistence, then the four prints. -/
def transcribe (st : SpeechToText) (w : World) (audio_file_path : String) :
    Except PyError RunResult :=
  match resize_audio_if_needed st w audio_file_path with
  | .error e => .error e
  | .ok (p, _) =>
    match transcribe_audio st w p with
    | .error e => .error e
    | .ok transcription =>
      let summary := (meeting_minutes w.gemini transcription).1
      let artifact := store_in_json_file summary w.temp_dir w.timestamp
      .ok { transcription := transcription, summary := summary, artifact := artifact }

/-- Value of one hexadecimal digit character (either case). -/
def hexVal (c : Char) : Option Nat :=
  if 48 ≤ c.toNat ∧ c.toNat ≤ 57 then some (c.toNat - 48)
  else if 97 ≤ c.toNat ∧ c.toNat ≤ 102 then some (c.toNat - 87)
  else if 65 ≤ c.toNat ∧ c.toNat ≤ 70 then some (c.toNat - 55)
  else none

/-- Value of a four-hex-digit group. -/
def hex4 (a b c d : Char) : Option Nat :=
  match hexVal a, hexVal b, hexVal c, hexVal d with
  | some w, some x, some y, some z => some (4096 * w + 256 * x + 16 * y + z)
  | _, _, _, _ => none

/-- The single-character JSON escapes. -/
def jsonEscCharVal (e : Char) : Option Char :=
  if e = '"' then some '"'
  else if e = '\\' then some '\\'
  else if e = '/' then some '/'
  else if e = 'b' then some (Char.ofNat 8)
  else if e = 'f' then some (Char.ofNat 12)
  else if e = 'n' then some '\n'
  else if e = 'r' then some '\r'
  else if e = 't' then some '\t'
  else none

/-- Scalar value combined from a surrogate pair. -/
def combineSurrogates (hi lo : Nat) : Nat :=
  0x10000 + (hi - 0xd800) * 1024 + (lo - 0xdc00)

/-- Scan one logical character of a strict JSON string, positioned after the
opening quote: `some (none, rest)` when the closing quote is reached,
`some (some ch, rest)` when one (possibly escaped) character `ch` was decoded.
Unescaped control characters are rejected; `\uXXXX` escapes decode, pairing
surrogates. (A lone surrogate, which Python would keep as a lone surrogate
code unit, has no Lean `Char` and is rejected.) -/
def scanToken : List Char → Option (Option Char × List Char)
  | [] => none
  | c :: rest =>
    if c = '"' then some (none, rest)
    else if c = '\\' then
      match rest with
      | [] => none
      | e :: rest2 =>
        if e = 'u' then
          match rest2 with
          | a :: b :: c3 :: d :: rest3 =>
            match hex4 a b c3 d with
            | none => none
            | some n =>
              if n < 0xd800 ∨ 0xdfff < n then some (some (Char.ofNat n), rest3)
              else if n ≤ 0xdbff then
                match rest3 with
                | b1 :: b2 :: a2 :: b3 :: c2 :: d2 :: rest4 =>
                  if b1 = '\\' ∧ b2 = 'u' then
                    match hex4 a2 b3 c2 d2 with
                    | some m =>
                      if 0xdc00 ≤ m ∧ m ≤ 0xdfff then
                        some (some (Char.ofNat (combineSurrogates n m)), rest4)
                      else none
                    | none => none
                  else none
                | _ => none
              else none
          | _ => none
        else
          match jsonEscCharVal e with
          | some ec => some (some ec, rest2)
          | none => none
    else if c.toNat < 0x20 then none
    else some (some c, rest)

/-- Strict JSON string scanning, positioned after the opening quote: returns
the decoded characters and the input remaining after the closing quote. The
fuel bounds the number of decoded characters; every scanned token consumes at
least one input character, so any fuel above the input length is sufficient. -/
def parseStringBody : Nat → List Char → Option (List Char × List Char)
  | 0, _ => none
  | Nat.succ fuel, cs =>
    match scanToken cs with
    | none => none
    | some (none, rest) => some ([], rest)
    | some (some ch, rest) =>
      match parseStringBody fuel rest with
      | some (s, r) => some (ch :: s, r)
      | none => none

/-- Skip JSON whitespace. -/
def skipWs : List Char → List Char
  | [] => []
  | c :: rest =>
    if c = ' ' ∨ c = '\t' ∨ c = '\n' ∨ c = '\r' then skipWs rest else c :: rest

/-- One `"key": "value"` member of a flat string-valued JSON object. -/
def parseOnePair : List Char → Option ((String × String) × List Char)
  | [] => none
  | c :: rest =>
    if c = '"' then
      match parseStringBody (rest.length + 1) rest with
      | some (k, r1) =>
        match skipWs r1 with
        | c2 :: r2 =>
          if c2 = ':' then
            match skipWs r2 with
            | c3 :: r3 =>
              if c3 = '"' then
                match parseStringBody (r3.length + 1) r3 with
                | some (v, r4) => some ((String.mk k, String.mk v), r4)
                | none => none
              else none
            | [] => none
          else none
        | [] => none
      | none => none
    else none

/-- The members of a flat string-valued JSON object, positioned at the first
key; consumes the closing brace. The fuel bounds the number of members; any
fuel above the input length is sufficient. -/
def parsePairsAux : Nat → List Char → Option (List (String × String) × List Char)
  | 0, _ => none
  | Nat.succ fuel, cs =>
    match parseOnePair cs with
    | none => none
    | some (kv, r) =>
      match skipWs r with
      | c :: r2 =>
        if c = ',' then
          match parsePairsAux fuel (skipWs r2) with
          | some (ps, r3) => some (kv :: ps, r3)
          | none => none
        else if c = '\x7d' then some ([kv], r2)
        else none
      | [] => none

/-- Parse a whole document that is one flat string-valued JSON object, as
`json.load` would accept it. Returns its members in order. -/
def parseFlatJsonObject (content : String) : Option (List (String × String)) :=
  match skipWs content.data with
  | [] => none
  | c :: rest =>
    if c = '\x7b' then
      match skipWs rest with
      | [] => none
      | c2 :: r2 =>
        if c2 = '\x7d' then if skipWs r2 = [] then some [] else none
        else
          match parsePairsAux (content.data.length + 4) (c2 :: r2) with
          | some (ps, r3) => if skipWs r3 = [] then some ps else none
          | none => none
    else none

/-- Rebuild a `MeetingSummary` from the parsed members: exactly the four keys,
in the order the persister writes them. -/
def summaryOfPairs : List (String × String) → Option MeetingSummary
  | [("abstract_summary", a), ("key_points", k), ("action_items", i), ("sentiment", s)] =>
    some { abstract_summary := a, key_points := k, action_items := i, sentiment := s }
  | _ => none

/-- Parse a persisted artifact back into the summary record. -/
def parseMeetingRecord (content : String) : Option MeetingSummary :=
  (parseFlatJsonObject content).bind summaryOfPairs

/-! ## Concrete fixtures used to evaluate the model on specific runs -/

/-- A configuration as built from a well-formed environment. -/
def stW : SpeechToText :=
  { elevenlabs_api_key := "elkey"
    gemini_api_key := "gmkey"
    gemini_model_name := "gemini-1.5-flash"
    elevenlabs_scribe_model_id := "scribe_v1"
    MAX_AUDIO_SIZE_BYTES := 20971520 }

/-- A configuration whose size threshold is 1000 bytes. -/
def stSmall : SpeechToText :=
  { elevenlabs_api_key := "elkey"
    gemini_api_key := "gmkey"
    gemini_model_name := "gemini-1.5-flash"
    elevenlabs_scribe_model_id := "scribe_v1"
    MAX_AUDIO_SIZE_BYTES := 1000 }

/-- A Gemini oracle that always generates text. -/
def gemOk : Gemini := fun _ => .ok "Resumo."

/-- A Gemini oracle whose every call raises a timeout. -/
def gemTimeout : Gemini := fun _ => .error "Request timed out."

/-- A world where the upload raises a transport error. -/
def wFail : World :=
  { fs := fun _ => some 1000
    post := .requestException "Connection refused"
    gemini := gemOk
    temp_dir := "/tmp/tmpabc"
    timestamp := "20240101000000" }

/-- A world where the endpoint answers 304 with a JSON object holding `text`. -/
def w304 : World :=
  { fs := fun _ => some 10
    post := .response 304 (some (Jval.obj (JObj.cons "text" (Jval.str "hello") JObj.nil)))
    gemini := gemOk
    temp_dir := "/tmp/tmpabc"
    timestamp := "20240101000000" }

/-- A world where the endpoint answers 200 with the JSON body `[]`. -/
def w200arr : World :=
  { fs := fun _ => some 10
    post := .response 200 (some (Jval.arr JArr.nil))
    gemini := gemOk
    temp_dir := "/tmp/tmpabc"
    timestamp := "20240101000000" }

/-- A world where the endpoint answers 200 with `\x7b"text": "hello world"\x7d`. -/
def w200ok : World :=
  { fs := fun _ => some 10
    post := .response 200 (some (Jval.obj (JObj.cons "text" (Jval.str "hello world") JObj.nil)))
    gemini := gemOk
    temp_dir := "/tmp/tmpabc"
    timestamp := "20240101000000" }

/-- A world holding a 2000-byte audio file. -/
def wBig : World :=
  { fs := fun _ => some 2000
    post := .requestException "x"
    gemini := gemOk
    temp_dir := "/tmp/tmpabc"
    timestamp := "20240101000000" }

/-- A world holding a 500-byte audio file. -/
def wLittle : World :=
  { fs := fun _ => some 500
    post := .requestException "x"
    gemini := gemOk
    temp_dir := "/tmp/tmpabc"
    timestamp := "20240101000000" }

/-- A world where no path names a readable file. -/
def wNoFile : World :=
  { fs := fun _ => none
    post := .requestException "x"
    gemini := gemOk
    temp_dir := "/tmp/tmpabc"
    timestamp := "20240101000000" }

/-- An environment with both credentials but a non-numeric size limit. -/
def envBad : String → Option String := fun name =>
  if name = "ELEVENLABS_API_KEY" then some "elkey"
  else if name = "GEMINI_API_KEY" then some "gmkey"
  else if name = "MAX_AUDIO_SIZE_BYTES" then some "vinte" else none

/-! ## Round-trip of the JSON string escaping -/

/-- Every `Char` is a Unicode scalar value: below the surrogate range or
strictly between it and `0x110000`. -/
theorem char_toNat_valid (c : Char) :
    c.toNat < 0xd800 ∨ (0xdfff < c.toNat ∧ c.toNat < 0x110000) := c.valid

/-- `hexVal` inverts `hexDigitChar` on digit values. -/
theorem hexVal_hexDigitChar : ∀ d, d < 16 → hexVal (hexDigitChar d) = some d := by decide

/-- `hex4` inverts the four-digit lowercase hex rendering of any `n < 0x10000`. -/
theorem hex4_toHex4 (n : Nat) (h : n < 65536) :
    hex4 (hexDigitChar (n / 4096 % 16)) (hexDigitChar (n / 256 % 16))
      (hexDigitChar (n / 16 % 16)) (hexDigitChar (n % 16)) = some n := by
  have e3 := hexVal_hexDigitChar (n / 4096 % 16) (Nat.mod_lt _ (by norm_num))
  have e2 := hexVal_hexDigitChar (n / 256 % 16) (Nat.mod_lt _ (by norm_num))
  have e1 := hexVal_hexDigitChar (n / 16 % 16) (Nat.mod_lt _ (by norm_num))
  have e0 := hexVal_hexDigitChar (n % 16) (Nat.mod_lt _ (by norm_num))
  simp only [hex4, e3, e2, e1, e0]
  congr 1
  omega

/-- Each character's escape is nonempty. -/
theorem one_le_length_jsonEscapeChar (c : Char) : 1 ≤ (jsonEscapeChar c).length := by
  unfold jsonEscapeChar
  repeat' split
  all_goals simp

/-- The escaped text is at least as long as the original. -/
theorem length_le_length_flatMap_escape (cs : List Char) :
    cs.length ≤ (cs.flatMap jsonEscapeChar).length := by
  induction cs with
  | nil => simp
  | cons c cs ih =>
    simp only [List.flatMap_cons, List.length_append, List.length_cons]
    have := one_le_length_jsonEscapeChar c
    omega

/-- `scanToken` on a non-surrogate `\uXXXX` escape. -/
theorem scanToken_uescape (n : Nat) (t : List Char)
    (h1 : n < 0xd800 ∨ 0xdfff < n) (hn : n < 65536) :
    scanToken ('\\' :: 'u' :: hexDigitChar (n / 4096 % 16) :: hexDigitChar (n / 256 % 16) ::
      hexDigitChar (n / 16 % 16) :: hexDigitChar (n % 16) :: t)
      = some (some (Char.ofNat n), t) := by
  have hx := hex4_toHex4 n hn
  simp [scanToken, hx, h1]

/-- `scanToken` on a surrogate-pair escape. -/
theorem scanToken_surrogate (n m : Nat) (t : List Char)
    (h1 : 0xd800 ≤ n) (h2 : n ≤ 0xdbff) (h3 : 0xdc00 ≤ m) (h4 : m ≤ 0xdfff) :
    scanToken ('\\' :: 'u' :: hexDigitChar (n / 4096 % 16) :: hexDigitChar (n / 256 % 16) ::
      hexDigitChar (n / 16 % 16) :: hexDigitChar (n % 16) :: '\\' :: 'u' ::
      hexDigitChar (m / 4096 % 16) :: hexDigitChar (m / 256 % 16) ::
      hexDigitChar (m / 16 % 16) :: hexDigitChar (m % 16) :: t)
      = some (some (Char.ofNat (combineSurrogates n m)), t) := by
  have hxn := hex4_toHex4 n (by omega)
  have hxm := hex4_toHex4 m (by omega)
  have hnot : ¬ (n < 0xd800 ∨ 0xdfff < n) := by omega
  have hle : n ≤ 0xdbff := h2
  have hm2 : 0xdc00 ≤ m := h3
  have hm3 : m ≤ 0xdfff := h4
  simp [scanToken, hxn, hxm, hnot, hle, hm2, hm3]

/-- `scanToken` undoes `jsonEscapeChar` at the head of the input. -/
theorem scanToken_escape (c : Char) (t : List Char) :
    scanToken (jsonEscapeChar c ++ t) = some (some c, t) := by
  have hval := char_toNat_valid c
  by_cases h1 : c = '"'
  · subst h1; rfl
  by_cases h2 : c = '\\'
  · subst h2; simp [jsonEscapeChar, h1, scanToken, jsonEscCharVal]
  by_cases h3 : c = '\n'
  · subst h3; simp [jsonEscapeChar, h1, h2, scanToken, jsonEscCharVal]
  by_cases h4 : c = '\r'
  · subst h4; simp [jsonEscapeChar, h1, h2, h3, scanToken, jsonEscCharVal]
  by_cases h5 : c = '\t'
  · subst h5; simp [jsonEscapeChar, h1, h2, h3, h4, scanToken, jsonEscCharVal]
  by_cases h6 : c.toNat = 8
  · have hc : c = Char.ofNat 8 := by rw [← h6, Char.ofNat_toNat]
    subst hc
    simp [jsonEscapeChar, h1, h2, h3, h4, h5, scanToken, jsonEscCharVal]
  by_cases h7 : c.toNat = 12
  · have hc : c = Char.ofNat 12 := by rw [← h7, Char.ofNat_toNat]
    subst hc
    simp [jsonEscapeChar, h1, h2, h3, h4, h5, scanToken, jsonEscCharVal]
  by_cases h8 : 0x20 ≤ c.toNat ∧ c.toNat ≤ 0x7e
  · have hne : ¬ c.toNat < 0x20 := by omega
    simp [jsonEscapeChar, h1, h2, h3, h4, h5, h6, h7, h8, scanToken, hne]
  by_cases h9 : c.toNat ≤ 0xffff
  · have hcond : c.toNat < 0xd800 ∨ 0xdfff < c.toNat := by omega
    have henc : jsonEscapeChar c ++ t =
        '\\' :: 'u' :: hexDigitChar (c.toNat / 4096 % 16) :: hexDigitChar (c.toNat / 256 % 16) ::
          hexDigitChar (c.toNat / 16 % 16) :: hexDigitChar (c.toNat % 16) :: t := by
      simp [jsonEscapeChar, h1, h2, h3, h4, h5, h6, h7, h8, h9]
    rw [henc, scanToken_uescape c.toNat t hcond (by omega), Char.ofNat_toNat]
  · have henc : jsonEscapeChar c ++ t =
        '\\' :: 'u' ::
          hexDigitChar ((0xd800 + (c.toNat - 0x10000) / 1024) / 4096 % 16) ::
          hexDigitChar ((0xd800 + (c.toNat - 0x10000) / 1024) / 256 % 16) ::
          hexDigitChar ((0xd800 + (c.toNat - 0x10000) / 1024) / 16 % 16) ::
          hexDigitChar ((0xd800 + (c.toNat - 0x10000) / 1024) % 16) :: '\\' :: 'u' ::
          hexDigitChar ((0xdc00 + (c.toNat - 0x10000) % 1024) / 4096 % 16) ::
          hexDigitChar ((0xdc00 + (c.toNat - 0x10000) % 1024) / 256 % 16) ::
          hexDigitChar ((0xdc00 + (c.toNat - 0x10000) % 1024) / 16 % 16) ::
          hexDigitChar ((0xdc00 + (c.toNat - 0x10000) % 1024) % 16) :: t := by
      simp [jsonEscapeChar, h1, h2, h3, h4, h5, h6, h7, h8, h9]
    have hmodlt : (c.toNat - 0x10000) % 1024 < 1024 := Nat.mod_lt _ (by norm_num)
    have hcomb : combineSurrogates (0xd800 + (c.toNat - 0x10000) / 1024)
        (0xdc00 + (c.toNat - 0x10000) % 1024) = c.toNat := by
      unfold combineSurrogates
      omega
    rw [henc, scanToken_surrogate _ _ t (by omega) (by omega) (by omega) (by omega),
      hcomb, Char.ofNat_toNat]

/-- `parseStringBody` inverts the `json.dumps` escaping of a character list
whenever the fuel exceeds the number of characters, leaving the input that
follows the closing quote untouched. -/
theorem psb_roundtrip (cs : List Char) :
    ∀ (f : Nat) (rest : List Char), cs.length < f →
    parseStringBody f (cs.flatMap jsonEscapeChar ++ '"' :: rest) = some (cs, rest) := by
  induction cs with
  | nil =>
    intro f rest hf
    match f, hf with
    | Nat.succ f, _ => simp [parseStringBody, scanToken]
  | cons c cs ih =>
    intro f rest hf
    match f, hf with
    | Nat.succ f, hf =>
      have hf2 : cs.length < f := by
        have := Nat.lt_of_succ_lt_succ hf
        simpa using this
      simp only [List.flatMap_cons, List.append_assoc, parseStringBody, scanToken_escape,
        ih f rest hf2]

/-! ## Round-trip of the persisted artifact -/

/-- `parseOnePair` undoes the encoding of one `"key": "value"` member. -/
theorem parseOnePair_enc (k v : String) (after : List Char) :
    parseOnePair ('"' :: (k.data.flatMap jsonEscapeChar ++ '"' :: ':' :: ' ' :: '"' ::
      (v.data.flatMap jsonEscapeChar ++ '"' :: after)))
      = some ((k, v), after) := by
  have hk := length_le_length_flatMap_escape k.data
  have hv := length_le_length_flatMap_escape v.data
  have h1 : k.data.length < (k.data.flatMap jsonEscapeChar ++
      '"' :: ':' :: ' ' :: '"' :: (v.data.flatMap jsonEscapeChar ++ '"' :: after)).length + 1 := by
    simp only [List.length_append, List.length_cons]
    omega
  have h2 : v.data.length < (v.data.flatMap jsonEscapeChar ++ '"' :: after).length + 1 := by
    simp only [List.length_append, List.length_cons]
    omega
  have hr2 := psb_roundtrip v.data
    ((v.data.flatMap jsonEscapeChar ++ '"' :: after).length + 1) after h2
  have hsk1 : skipWs (':' :: ' ' :: '"' :: (v.data.flatMap jsonEscapeChar ++ '"' :: after)) =
      ':' :: ' ' :: '"' :: (v.data.flatMap jsonEscapeChar ++ '"' :: after) := by simp [skipWs]
  have hsk2 : skipWs (' ' :: '"' :: (v.data.flatMap jsonEscapeChar ++ '"' :: after)) =
      '"' :: (v.data.flatMap jsonEscapeChar ++ '"' :: after) := by simp [skipWs]
  simp only [parseOnePair, if_true]
  rw [psb_roundtrip _ _ _ h1]
  dsimp only
  rw [hsk1]
  dsimp only
  rw [if_pos rfl]
  rw [hsk2]
  dsimp only
  rw [if_pos rfl]
  rw [hr2]

/-- One encoded member followed by `", "` and another member list. -/
theorem parsePairsAux_enc_cons (f : Nat) (k v : String) (rp : List Char) :
    parsePairsAux (f + 1) ('"' :: (k.data.flatMap jsonEscapeChar ++ '"' :: ':' :: ' ' :: '"' ::
      (v.data.flatMap jsonEscapeChar ++ '"' :: ',' :: ' ' :: '"' :: rp)))
      = match parsePairsAux f ('"' :: rp) with
        | some (ps, r) => some ((k, v) :: ps, r)
        | none => none := by
  have hp := parseOnePair_enc k v (',' :: ' ' :: '"' :: rp)
  have hsk1 : skipWs (',' :: ' ' :: '"' :: rp) = ',' :: ' ' :: '"' :: rp := by simp [skipWs]
  have hsk2 : skipWs (' ' :: '"' :: rp) = '"' :: rp := by simp [skipWs]
  simp only [parsePairsAux]
  rw [hp]
  dsimp only
  rw [hsk1]
  dsimp only
  rw [if_pos rfl]
  rw [hsk2]

/-- The last encoded member, followed by the closing brace. -/
theorem parsePairsAux_enc_last (f : Nat) (k v : String) :
    parsePairsAux (f + 1) ('"' :: (k.data.flatMap jsonEscapeChar ++ '"' :: ':' :: ' ' :: '"' ::
      (v.data.flatMap jsonEscapeChar ++ '"' :: '\x7d' :: [])))
      = some ([(k, v)], []) := by
  have hp := parseOnePair_enc k v ('\x7d' :: [])
  have hsk1 : skipWs ('\x7d' :: []) = '\x7d' :: [] := by simp [skipWs]
  simp only [parsePairsAux]
  rw [hp]
  dsimp only
  rw [hsk1]
  dsimp only
  rw [if_neg (by decide), if_pos rfl]

/-- `String.mk` and `String.data` are inverse. -/
theorem data_mk (l : List Char) : (String.mk l).data = l := rfl

/-- Characters of the key separator. -/
theorem data_colon_space : ": ".data = [':', ' '] := rfl

/-- Characters of the member separator. -/
theorem data_comma_space : ", ".data = [',', ' '] := rfl

/-- Characters of the opening brace literal. -/
theorem data_lbrace : "\x7b".data = ['\x7b'] := rfl

/-- Characters of the closing brace literal. -/
theorem data_rbrace : "\x7d".data = ['\x7d'] := rfl

/-- The persisted text, as a character list in scanning order. -/
theorem store_content_data (d : MeetingSummary) :
    (store_json_content d).data =
      '\x7b' :: '"' :: ("abstract_summary".data.flatMap jsonEscapeChar ++ '"' :: ':' :: ' ' :: '"' ::
        (d.abstract_summary.data.flatMap jsonEscapeChar ++ '"' :: ',' :: ' ' :: '"' ::
        ("key_points".data.flatMap jsonEscapeChar ++ '"' :: ':' :: ' ' :: '"' ::
        (d.key_points.data.flatMap jsonEscapeChar ++ '"' :: ',' :: ' ' :: '"' ::
        ("action_items".data.flatMap jsonEscapeChar ++ '"' :: ':' :: ' ' :: '"' ::
        (d.action_items.data.flatMap jsonEscapeChar ++ '"' :: ',' :: ' ' :: '"' ::
        ("sentiment".data.flatMap jsonEscapeChar ++ '"' :: ':' :: ' ' :: '"' ::
        (d.sentiment.data.flatMap jsonEscapeChar ++ '"' :: '\x7d' :: [])))))))) := by
  simp only [store_json_content, jsonEncodeString, String.data_append, data_mk,
    data_colon_space, data_comma_space, data_lbrace, data_rbrace,
    List.append_assoc, List.cons_append, List.singleton_append, List.nil_append]

/-- Four encoded members and the closing brace, under any sufficient fuel. -/
theorem parsePairsAux_enc4 (f : Nat) (h : 4 ≤ f) (k1 v1 k2 v2 k3 v3 k4 v4 : String) :
    parsePairsAux f ('"' :: (k1.data.flatMap jsonEscapeChar ++ '"' :: ':' :: ' ' :: '"' ::
      (v1.data.flatMap jsonEscapeChar ++ '"' :: ',' :: ' ' :: '"' ::
      (k2.data.flatMap jsonEscapeChar ++ '"' :: ':' :: ' ' :: '"' ::
      (v2.data.flatMap jsonEscapeChar ++ '"' :: ',' :: ' ' :: '"' ::
      (k3.data.flatMap jsonEscapeChar ++ '"' :: ':' :: ' ' :: '"' ::
      (v3.data.flatMap jsonEscapeChar ++ '"' :: ',' :: ' ' :: '"' ::
      (k4.data.flatMap jsonEscapeChar ++ '"' :: ':' :: ' ' :: '"' ::
      (v4.data.flatMap jsonEscapeChar ++ '"' :: '\x7d' :: [])))))))))
      = some ([(k1, v1), (k2, v2), (k3, v3), (k4, v4)], []) := by
  obtain ⟨g, rfl⟩ : ∃ g, f = g + 1 + 1 + 1 + 1 := ⟨f - 4, by omega⟩
  rw [parsePairsAux_enc_cons, parsePairsAux_enc_cons, parsePairsAux_enc_cons,
    parsePairsAux_enc_last]

/-- `skipWs` does not move over an opening brace. -/
theorem skipWs_lbrace (t : List Char) : skipWs ('\x7b' :: t) = '\x7b' :: t := by simp [skipWs]

/-- `skipWs` does not move over a quote. -/
theorem skipWs_quote (t : List Char) : skipWs ('"' :: t) = '"' :: t := by simp [skipWs]

/-- The persisted artifact parses back to exactly its four members, in order. -/
theorem parseFlat_store (d : MeetingSummary) :
    parseFlatJsonObject (store_json_content d) =
      some [("abstract_summary", d.abstract_summary), ("key_points", d.key_points),
        ("action_items", d.action_items), ("sentiment", d.sentiment)] := by
  simp only [parseFlatJsonObject]
  rw [store_content_data]
  rw [skipWs_lbrace]
  dsimp only
  rw [if_pos rfl]
  rw [skipWs_quote]
  dsimp only
  rw [if_neg (by decide)]
  rw [parsePairsAux_enc4 _ (by omega)]
  dsimp only [skipWs]
  rw [if_pos rfl]

/-- `dict.get key default` agrees with the plain lookup. -/
theorem dictGet_eq_lookup : ∀ (fields : JObj) (key : String) (dflt : Jval),
    dictGet fields key dflt = (jobjLookup fields key).getD dflt
  | .nil, _, _ => rfl
  | .cons k v rest, key, dflt => by
    by_cases h : k = key
    · simp [dictGet, jobjLookup, h]
    · simp [dictGet, jobjLookup, h, dictGet_eq_lookup rest key dflt]

/-! ## The claims -/

/-- C1: for every audio path, the orchestrator `transcribe` calls
`meeting_minutes` on whatever `transcribe_audio` returned — including the null
transcript produced by a transcription failure — and then persists the
resulting summary; there is no early exit or branch on transcriber failure
before summarization and persistence run. -/
theorem C1_transcribe_summarizes_whatever_transcriber_returned
    (st : SpeechToText) (w : World) (path : String) (t : Jval)
    (h : transcribe_audio st w path = .ok t) :
    transcribe st w path = .ok
      { transcription := t
        summary := (meeting_minutes w.gemini t).1
        artifact := store_in_json_file (meeting_minutes w.gemini t).1 w.temp_dir w.timestamp } := by
  cases hfs : w.fs path with
  | none => simp [transcribe_audio, hfs] at h
  | some sz =>
    simp only [transcribe, resize_audio_if_needed, get_file_size, hfs]
    by_cases hgt : sz > st.MAX_AUDIO_SIZE_BYTES
    · rw [if_pos hgt]
      dsimp only
      rw [h]
    · rw [if_neg hgt]
      dsimp only
      rw [h]

/-- C1 witness: on a concrete run whose upload raises a transport error, the
null transcript still flows into the summarizer and the persister. -/
theorem C1_witness :
    transcribe stW wFail "meet.mp3" = .ok
      { transcription := Jval.null
        summary := (meeting_minutes wFail.gemini Jval.null).1
        artifact := store_in_json_file (meeting_minutes wFail.gemini Jval.null).1
          wFail.temp_dir wFail.timestamp } :=
  C1_transcribe_summarizes_whatever_transcriber_returned stW wFail "meet.mp3" Jval.null rfl

/-- C2: for every transcript string `T` (including `""`), `meeting_minutes`
sends exactly four prompts to the text-generation client — one per fixed
instruction, each built only from that instruction and `T` — and returns a
record with exactly the four string-valued keys `abstract_summary`,
`key_points`, `action_items`, `sentiment` (the `MeetingSummary` type). -/
theorem C2_meeting_minutes_four_calls (g : Gemini) (T : String) :
    (meeting_minutes g (Jval.str T)).2.length = 4 ∧
    (meeting_minutes g (Jval.str T)).2 =
      [mkPrompt ABSTRACT_SUMMARY_PROMPT (Jval.str T), mkPrompt KEY_POINTS_PROMPT (Jval.str T),
       mkPrompt ACTION_ITEM_PROMPT (Jval.str T), mkPrompt SENTIMENT_PROMPT (Jval.str T)] ∧
    (meeting_minutes g (Jval.str T)).1 =
      { abstract_summary := (abstract_summary_extraction g (Jval.str T)).1
        key_points := (key_points_extraction g (Jval.str T)).1
        action_items := (action_item_extraction g (Jval.str T)).1
        sentiment := (sentiment_analysis g (Jval.str T)).1 } :=
  ⟨rfl, rfl, rfl⟩

/-- C3: each of the four generation sub-operations catches a raised provider
error locally and returns the text `"Erro ao gerar conteúdo: "` followed by
the literal error message, instead of propagating the exception. -/
theorem C3_generation_errors_swallowed (g : Gemini) (t : Jval) (e : String) :
    (g (mkPrompt ABSTRACT_SUMMARY_PROMPT t) = .error e →
      (abstract_summary_extraction g t).1 = "Erro ao gerar conteúdo: " ++ e) ∧
    (g (mkPrompt KEY_POINTS_PROMPT t) = .error e →
      (key_points_extraction g t).1 = "Erro ao gerar conteúdo: " ++ e) ∧
    (g (mkPrompt ACTION_ITEM_PROMPT t) = .error e →
      (action_item_extraction g t).1 = "Erro ao gerar conteúdo: " ++ e) ∧
    (g (mkPrompt SENTIMENT_PROMPT t) = .error e →
      (sentiment_analysis g t).1 = "Erro ao gerar conteúdo: " ++ e) := by
  refine ⟨fun h => ?_, fun h => ?_, fun h => ?_, fun h => ?_⟩ <;>
    simp [abstract_summary_extraction, key_points_extraction, action_item_extraction,
      sentiment_analysis, _generate_gemini_content, h]

/-- C3 witness: a timing-out provider turns every field into the error text. -/
theorem C3_witness :
    (abstract_summary_extraction gemTimeout (Jval.str "Olá")).1 =
      "Erro ao gerar conteúdo: Request timed out." ∧
    (key_points_extraction gemTimeout (Jval.str "Olá")).1 =
      "Erro ao gerar conteúdo: Request timed out." ∧
    (action_item_extraction gemTimeout (Jval.str "Olá")).1 =
      "Erro ao gerar conteúdo: Request timed out." ∧
    (sentiment_analysis gemTimeout (Jval.str "Olá")).1 =
      "Erro ao gerar conteúdo: Request timed out." :=
  ⟨(C3_generation_errors_swallowed gemTimeout (Jval.str "Olá") "Request timed out.").1 rfl,
   (C3_generation_errors_swallowed gemTimeout (Jval.str "Olá") "Request timed out.").2.1 rfl,
   (C3_generation_errors_swallowed gemTimeout (Jval.str "Olá") "Request timed out.").2.2.1 rfl,
   (C3_generation_errors_swallowed gemTimeout (Jval.str "Olá") "Request timed out.").2.2.2 rfl⟩

/-- C4 counterexample: a final response with the non-2xx status 304 and a JSON
object body holding a `text` field makes `transcribe_audio` return that text,
not the null transcript — refuting the claim that every non-2xx status yields
`None`. (`requests.raise_for_status` raises only for 400–599; a 304 response,
which redirect resolution never follows, reaches the JSON decoding.) -/
theorem C4_counterexample :
    w304.post = PostOutcome.response 304
      (some (Jval.obj (JObj.cons "text" (Jval.str "hello") JObj.nil))) ∧
    ¬ (200 ≤ 304 ∧ 304 < 300) ∧
    transcribe_audio stW w304 "meet.mp3" = .ok (Jval.str "hello") ∧
    Jval.str "hello" ≠ Jval.null :=
  ⟨rfl, by decide, rfl, fun h => nomatch h⟩

/-- C4 (amended): a transport-level error, a 4xx or 5xx status, or a body that
fails to parse as JSON all make `transcribe_audio` return the null transcript
without raising; statuses outside 400–599 are not themselves converted. -/
theorem C4_amended_failures_yield_null (st : SpeechToText) (w : World) (path : String)
    (sz : Int) (hfs : w.fs path = some sz) :
    (∀ msg, w.post = .requestException msg → transcribe_audio st w path = .ok Jval.null) ∧
    (∀ status body, w.post = .response status body → 400 ≤ status → status < 600 →
      transcribe_audio st w path = .ok Jval.null) ∧
    (∀ status, w.post = .response status none → transcribe_audio st w path = .ok Jval.null) := by
  refine ⟨fun msg hp => ?_, fun status body hp h4 h6 => ?_, fun status hp => ?_⟩
  · simp [transcribe_audio, hfs, hp]
  · simp [transcribe_audio, hfs, hp, h4, h6]
  · simp [transcribe_audio, hfs, hp]

/-- C4 witness: the transport-error world concretely yields the null
transcript without an exception. -/
theorem C4_witness : transcribe_audio stW wFail "meet.mp3" = .ok Jval.null :=
  (C4_amended_failures_yield_null stW wFail "meet.mp3" 1000 rfl).1 "Connection refused" rfl

/-- C5 counterexample: a 2xx response whose body is the JSON array `[]` — a
body with no `text` key — makes `transcribe_audio` raise an uncaught
`AttributeError` (`.get` on a list), not return the empty string. -/
theorem C5_counterexample :
    w200arr.post = PostOutcome.response 200 (some (Jval.arr JArr.nil)) ∧
    transcribe_audio stW w200arr "meet.mp3" =
      .error (PyError.attributeError "object has no attribute get") ∧
    (Except.error (PyError.attributeError "object has no attribute get") ≠
      (Except.ok (Jval.str "") : Except PyError Jval)) :=
  ⟨rfl, rfl, fun h => nomatch h⟩

/-- C5 (amended): on a success-status response whose body is a JSON object,
`transcribe_audio` returns the `text` member verbatim when present and the
empty string when the object lacks it; a body that is valid JSON but not an
object raises an uncaught `AttributeError`. -/
theorem C5_amended_text_field_extraction (st : SpeechToText) (w : World) (path : String)
    (sz : Int) (hfs : w.fs path = some sz) (status : Nat)
    (h2a : 200 ≤ status) (h2b : status < 300) :
    (∀ fields v, w.post = .response status (some (Jval.obj fields)) →
      jobjLookup fields "text" = some v → transcribe_audio st w path = .ok v) ∧
    (∀ fields, w.post = .response status (some (Jval.obj fields)) →
      jobjLookup fields "text" = none → transcribe_audio st w path = .ok (Jval.str "")) ∧
    (∀ j, w.post = .response status (some j) → (∀ fields, j ≠ Jval.obj fields) →
      transcribe_audio st w path = .error (PyError.attributeError "object has no attribute get")) := by
  have hnf : ¬ (400 ≤ status ∧ status < 600) := by omega
  refine ⟨fun fields v hp hl => ?_, fun fields hp hl => ?_, fun j hp hne => ?_⟩
  · simp [transcribe_audio, hfs, hp, hnf, dictGet_eq_lookup, hl]
  · simp [transcribe_audio, hfs, hp, hnf, dictGet_eq_lookup, hl]
  · cases j with
    | obj fields => exact absurd rfl (hne fields)
    | str s => simp [transcribe_audio, hfs, hp, hnf]
    | num n => simp [transcribe_audio, hfs, hp, hnf]
    | bool b => simp [transcribe_audio, hfs, hp, hnf]
    | null => simp [transcribe_audio, hfs, hp, hnf]
    | arr xs => simp [transcribe_audio, hfs, hp, hnf]

/-- C5 witness: a 2xx body `\x7b"text": "hello world"\x7d` concretely yields
exactly `"hello world"`. -/
theorem C5_witness : transcribe_audio stW w200ok "meet.mp3" = .ok (Jval.str "hello world") :=
  (C5_amended_text_field_extraction stW w200ok "meet.mp3" 10 rfl 200 (by decide) (by decide)).1
    (JObj.cons "text" (Jval.str "hello world") JObj.nil) (Jval.str "hello world") rfl rfl

/-- C6: when either mandatory credential is absent from the environment,
construction fails with the configuration `ValueError` before anything else
runs (the model performs no network effect in `init` at all), so no configured
instance — and hence no further operation — exists. -/
theorem C6_missing_credentials_fail_construction (env : String → Option String)
    (h : env "ELEVENLABS_API_KEY" = none ∨ env "GEMINI_API_KEY" = none) :
    ∃ msg, SpeechToText.init env = .error (.valueError msg) := by
  by_cases h1 : pyFalsy (env "ELEVENLABS_API_KEY") = true
  · exact ⟨"ELEVENLABS_API_KEY não configurada nas variáveis de ambiente.",
      by simp [SpeechToText.init, h1]⟩
  · cases h with
    | inl hl => exact absurd (by simp [hl, pyFalsy]) h1
    | inr hr =>
      cases henv : env "ELEVENLABS_API_KEY" with
      | none => exact absurd (by simp [henv, pyFalsy]) h1
      | some s =>
        have hs : ¬ s = "" := by
          intro hse
          exact h1 (by simp [henv, pyFalsy, hse])
        refine ⟨"GEMINI_API_KEY não configurada nas variáveis de ambiente.", ?_⟩
        simp [SpeechToText.init, henv, hr, pyFalsy, hs]

/-- C6 witness: the empty environment fails construction. -/
theorem C6_witness : ∃ msg, SpeechToText.init (fun _ => none) = .error (.valueError msg) :=
  C6_missing_credentials_fail_construction (fun _ => none) (Or.inl rfl)

/-- C7: the size-check step returns its input path unchanged in both branches;
it prints the oversize warning exactly when the file size strictly exceeds the
configured threshold, and never resizes or rejects. -/
theorem C7_resize_is_identity (st : SpeechToText) (w : World) (path : String) (sz : Int)
    (hfs : w.fs path = some sz) :
    (sz > st.MAX_AUDIO_SIZE_BYTES → resize_audio_if_needed st w path = .ok (path, true)) ∧
    (sz ≤ st.MAX_AUDIO_SIZE_BYTES → resize_audio_if_needed st w path = .ok (path, false)) := by
  constructor
  · intro hgt
    simp [resize_audio_if_needed, get_file_size, hfs, hgt]
  · intro hle
    simp [resize_audio_if_needed, get_file_size, hfs, not_lt.mpr hle]

/-- C7 witness: with a 1000-byte threshold, a 2000-byte file warns and passes
through unchanged; a 500-byte file passes through silently. -/
theorem C7_witness :
    resize_audio_if_needed stSmall wBig "a.mp3" = .ok ("a.mp3", true) ∧
    resize_audio_if_needed stSmall wLittle "a.mp3" = .ok ("a.mp3", false) :=
  ⟨(C7_resize_is_identity stSmall wBig "a.mp3" 2000 rfl).1 (by decide),
   (C7_resize_is_identity stSmall wLittle "a.mp3" 500 rfl).2 (by decide)⟩

/-- C8: each `store_in_json_file` call creates exactly one file (the single
`StoredFile` it yields, in the fresh directory), whose content is the JSON
dump of the record and parses back into the same four-key record with
identical string values. -/
theorem C8_store_roundtrip (data : MeetingSummary) (temp_dir timestamp : String) :
    (store_in_json_file data temp_dir timestamp).content = store_json_content data ∧
    parseMeetingRecord (store_in_json_file data temp_dir timestamp).content = some data := by
  refine ⟨rfl, ?_⟩
  simp [store_in_json_file, parseMeetingRecord, parseFlat_store, summaryOfPairs]

/-- C9: a path naming no readable file makes `transcribe_audio` raise — the
`open` sits outside the `try` block — unlike network and JSON failures, which
are converted to a null transcript. -/
theorem C9_missing_file_raises (st : SpeechToText) (w : World) (path : String)
    (h : w.fs path = none) :
    transcribe_audio st w path =
      .error (.osError ("No such file or directory: " ++ path)) := by
  simp [transcribe_audio, h]

/-- C9 witness: a concrete missing path propagates the `OSError`. -/
theorem C9_witness :
    transcribe_audio stW wNoFile "missing.mp3" =
      .error (.osError ("No such file or directory: " ++ "missing.mp3")) :=
  C9_missing_file_raises stW wNoFile "missing.mp3" rfl

/-- C10: with both credentials present and non-empty, a
`MAX_AUDIO_SIZE_BYTES` value that does not parse as an integer makes
construction raise the `int()` `ValueError`. -/
theorem C10_bad_max_size_raises (env : String → Option String) (k1 k2 v : String)
    (h1 : env "ELEVENLABS_API_KEY" = some k1) (h1n : k1 ≠ "")
    (h2 : env "GEMINI_API_KEY" = some k2) (h2n : k2 ≠ "")
    (h3 : env "MAX_AUDIO_SIZE_BYTES" = some v) (h4 : int_of_string v = none) :
    SpeechToText.init env =
      .error (.valueError ("invalid literal for int() with base 10: " ++ v)) := by
  simp [SpeechToText.init, h1, h2, h3, h4, pyFalsy, h1n, h2n]

/-- C10 witness: the environment with `MAX_AUDIO_SIZE_BYTES="vinte"` raises
even though both credentials are present. -/
theorem C10_witness :
    SpeechToText.init envBad =
      .error (.valueError ("invalid literal for int() with base 10: " ++ "vinte")) :=
  C10_bad_max_size_raises envBad "elkey" "gmkey" "vinte" rfl (by decide) rfl (by decide) rfl rfl
